import Mathlib

/-!
Shallow embedding of the Weather-Prediction-App core
(`weather_metrics.py`, `utils.py`, `app.py`, `weather_sql.py`).

Weather quantities (temperatures in F, wind in mph, precipitation in inches)
are modelled as rationals; calendar fields as integers.  Python exceptions are
modelled with `Except`; the upstream HTTP archive call is an oracle parameter
`api : Date → Except FetchError (List DailySample)` giving, for a requested
single-day range, the list of per-day rows the upstream returned.
-/

/-- A calendar date as requested from the archive (`datetime(year, month, day)`). -/
structure Date where
  year : Int
  month : Int
  day : Int
deriving DecidableEq, Repr

/-- One day's observation row: the six daily fields requested from the archive
(`temperature_2m_max`, `temperature_2m_min`, `temperature_2m_mean`,
`precipitation_sum`, `wind_speed_10m_max`, `wind_gusts_10m_max`) plus its date. -/
structure DailySample where
  date : Date
  temperature_2m_max : ℚ
  temperature_2m_min : ℚ
  temperature_2m_mean : ℚ
  precipitation_sum : ℚ
  wind_speed_10m_max : ℚ
  wind_gusts_10m_max : ℚ
deriving DecidableEq, Repr

/-- pandas `Series.mean()` over a column. -/
def colMean (xs : List ℚ) : ℚ := xs.sum / (xs.length : ℚ)

/-- pandas `Series.min()` over a nonempty column (0 for the empty column,
which never occurs in the program: the series always has 5 rows). -/
def colMin : List ℚ → ℚ
  | [] => 0
  | x :: xs => xs.foldl min x

/-- pandas `Series.max()` over a nonempty column (0 for the empty column). -/
def colMax : List ℚ → ℚ
  | [] => 0
  | x :: xs => xs.foldl max x

/-- pandas `Series.sum()` over a column. -/
def colSum (xs : List ℚ) : ℚ := xs.sum

/-- The nine summary statistics computed by `WeatherMetrics.fill_out_class`. -/
structure WeatherSummary where
  avg_temp : ℚ
  min_temp : ℚ
  max_temp : ℚ
  avg_wind : ℚ
  min_wind : ℚ
  max_wind : ℚ
  sum_precip : ℚ
  min_precip : ℚ
  max_precip : ℚ
deriving DecidableEq, Repr

/-- `WeatherMetrics.calc_avg_temp`: mean of the `temperature_2m_mean` column. -/
def calc_avg_temp (data : List DailySample) : ℚ :=
  colMean (data.map DailySample.temperature_2m_mean)

/-- `WeatherMetrics.calc_wind_speed_max`: max of the `wind_speed_10m_max` column. -/
def calc_wind_speed_max (data : List DailySample) : ℚ :=
  colMax (data.map DailySample.wind_speed_10m_max)

/-- `WeatherMetrics.calc_total_precip`: sum of the `precipitation_sum` column. -/
def calc_total_precip (data : List DailySample) : ℚ :=
  colSum (data.map DailySample.precipitation_sum)

/-- The statistics step of `WeatherMetrics.fill_out_class` (lines 38-46):
each summary field from its column of the assembled series. -/
def fill_out_stats (data : List DailySample) : WeatherSummary where
  avg_temp := calc_avg_temp data
  min_temp := colMin (data.map DailySample.temperature_2m_min)
  max_temp := colMax (data.map DailySample.temperature_2m_max)
  avg_wind := colMean (data.map DailySample.wind_speed_10m_max)
  min_wind := colMin (data.map DailySample.wind_speed_10m_max)
  max_wind := calc_wind_speed_max data
  sum_precip := calc_total_precip data
  min_precip := colMin (data.map DailySample.precipitation_sum)
  max_precip := colMax (data.map DailySample.precipitation_sum)

/-- Replace a sample's wind-gust value, leaving every other field unchanged. -/
def setGust (g : ℚ) (s : DailySample) : DailySample := { s with wind_gusts_10m_max := g }

/-- Error kinds of a failing fetch.  `indexError` is the Python `IndexError`
raised by `data_for_that_year['date'][0]` on an empty response. -/
inductive FetchError where
  | network
  | timeout
  | upstreamFormat
  | rateLimited
  | indexError
deriving DecidableEq, Repr

/-- The `[0]` indexing in `WeatherMetrics.get_data_for_date` (lines 70-77):
take the first row of the upstream response; raise `IndexError` when it is empty. -/
def extract_first_day (rows : List DailySample) : Except FetchError DailySample :=
  match rows with
  | [] => .error .indexError
  | r :: _ => .ok r

/-- One loop iteration of `get_data_for_date`: call the archive for the
single-day range and take its first row. -/
def fetch_one (api : Date → Except FetchError (List DailySample)) (dt : Date) :
    Except FetchError DailySample :=
  match api dt with
  | .error e => .error e
  | .ok rows => extract_first_day rows

/-- Iteration `i` of the loop `for i in range(1, 6)`:
`start_date = datetime(now.year - i, self.month, self.day)`. -/
def fetch_year (api : Date → Except FetchError (List DailySample))
    (currentYear month day i : Int) : Except FetchError DailySample :=
  fetch_one api ⟨currentYear - i, month, day⟩

/-- `WeatherMetrics.get_data_for_date`: run the five iterations in order
i = 1,2,3,4,5 (years currentYear-1 down to currentYear-5), appending each
year's first row; a raised exception propagates and aborts the loop. -/
def get_data_for_date (api : Date → Except FetchError (List DailySample))
    (currentYear month day : Int) : Except FetchError (List DailySample) :=
  match fetch_year api currentYear month day 1 with
  | .error e => .error e
  | .ok s1 =>
  match fetch_year api currentYear month day 2 with
  | .error e => .error e
  | .ok s2 =>
  match fetch_year api currentYear month day 3 with
  | .error e => .error e
  | .ok s3 =>
  match fetch_year api currentYear month day 4 with
  | .error e => .error e
  | .ok s4 =>
  match fetch_year api currentYear month day 5 with
  | .error e => .error e
  | .ok s5 => .ok [s1, s2, s3, s4, s5]

/-- `WeatherMetrics.fill_out_class`: assemble the five-year series, then compute
the summary statistics from it.  An exception from the fetch loop propagates. -/
def fill_out_class (api : Date → Except FetchError (List DailySample))
    (currentYear month day : Int) : Except FetchError WeatherSummary :=
  match get_data_for_date api currentYear month day with
  | .error e => .error e
  | .ok data => .ok (fill_out_stats data)

/-- The year of each entry of an assembled series, in series order. -/
def seriesYears (r : Except FetchError (List DailySample)) : Except FetchError (List Int) :=
  match r with
  | .error e => .error e
  | .ok l => .ok (l.map (fun s => s.date.year))

/-- The date of each entry of an assembled series, in series order. -/
def seriesDates (r : Except FetchError (List DailySample)) : Except FetchError (List Date) :=
  match r with
  | .error e => .error e
  | .ok l => .ok (l.map DailySample.date)

/-- `app.calculate_weather_risk` (lines 438-465): accumulate `risk_factors`
through the three if/elif blocks, then classify. -/
def calculate_weather_risk (w : WeatherSummary) : String × String :=
  let rf : Int := 0
  let rf := if w.max_temp > 90 then rf + 2 else if w.max_temp > 85 then rf + 1 else rf
  let rf := if w.max_wind > 25 then rf + 2 else if w.max_wind > 15 then rf + 1 else rf
  let rf := if w.sum_precip > 1 then rf + 2 else if w.sum_precip > 1/2 then rf + 1 else rf
  if rf ≥ 4 then ("High", "Consider indoor alternatives")
  else if rf ≥ 2 then ("Medium", "Have backup plans ready")
  else ("Low", "Good conditions expected")

/-- The spec's `risk_factors` written as one arithmetic expression:
(2 if max_temp>90 else 1 if max_temp>85 else 0) + (wind term) + (precip term). -/
def risk_factors_spec (w : WeatherSummary) : Int :=
  (if w.max_temp > 90 then 2 else if w.max_temp > 85 then 1 else 0)
  + (if w.max_wind > 25 then 2 else if w.max_wind > 15 then 1 else 0)
  + (if w.sum_precip > 1 then 2 else if w.sum_precip > 1/2 then 1 else 0)

/-- `utils.calculate_weather_suitability_score` before the final clamp:
the value of the local `score` variable just before `return max(0, score)`. -/
def suitability_score_raw (w : WeatherSummary) : Int :=
  let score : Int := 100
  let score := if w.avg_temp < 60 ∨ w.avg_temp > 90 then score - 30
    else if w.avg_temp < 70 ∨ w.avg_temp > 80 then score - 15 else score
  let score := if w.max_wind > 25 then score - 25
    else if w.max_wind > 15 then score - 15
    else if w.max_wind > 10 then score - 10 else score
  if w.sum_precip > 1 then score - 20
  else if w.sum_precip > 1/2 then score - 10
  else if w.sum_precip > 1/10 then score - 5 else score

/-- `utils.calculate_weather_suitability_score` (lines 112-141): the raw score
clamped from below by `max(0, score)`. -/
def calculate_weather_suitability_score (w : WeatherSummary) : Int :=
  max 0 (suitability_score_raw w)

/-- The spec's temperature deduction: 30 if avg_temp<60 or >90, else 15 if <70 or >80, else 0. -/
def temp_deduction (w : WeatherSummary) : Int :=
  if w.avg_temp < 60 ∨ w.avg_temp > 90 then 30
  else if w.avg_temp < 70 ∨ w.avg_temp > 80 then 15 else 0

/-- The spec's wind deduction: 25 if max_wind>25, else 15 if >15, else 10 if >10, else 0. -/
def wind_deduction (w : WeatherSummary) : Int :=
  if w.max_wind > 25 then 25 else if w.max_wind > 15 then 15
  else if w.max_wind > 10 then 10 else 0

/-- The spec's precipitation deduction: 20 if sum_precip>1.0, else 10 if >0.5, else 5 if >0.1, else 0. -/
def precip_deduction (w : WeatherSummary) : Int :=
  if w.sum_precip > 1 then 20 else if w.sum_precip > 1/2 then 10
  else if w.sum_precip > 1/10 then 5 else 0

/-- The spec's suitability formula: max(0, 100 - tempDeduction - windDeduction - precipDeduction). -/
def suitability_score_spec (w : WeatherSummary) : Int :=
  max 0 (100 - temp_deduction w - wind_deduction w - precip_deduction w)

/-- `calendar.isleap` as used by `utils.validate_date`:
`year % 4 == 0 and (year % 100 != 0 or year % 400 == 0)`. -/
def isleap (y : Int) : Bool :=
  y % 4 == 0 && (y % 100 != 0 || y % 400 == 0)

/-- `utils.validate_date` (lines 31-63): range checks on month and year, then
day bounds by month class, with February depending on `calendar.isleap`. -/
def validate_date (month day year : Int) : Bool :=
  if 1 ≤ month ∧ month ≤ 12 then
    if 1940 ≤ year ∧ year ≤ 2030 then
      if month ∈ ([1, 3, 5, 7, 8, 10, 12] : List Int) then decide (1 ≤ day ∧ day ≤ 31)
      else if month ∈ ([4, 6, 9, 11] : List Int) then decide (1 ≤ day ∧ day ≤ 30)
      else if isleap year then decide (1 ≤ day ∧ day ≤ 29)
      else decide (1 ≤ day ∧ day ≤ 28)
    else false
  else false

/-- The day bound the spec states for each (month, year): 31-day months, 30-day
months, and February with the spec's leap rule (divisible by 4 and (not
divisible by 100 or divisible by 400)). -/
def month_length_spec (month year : Int) : Int :=
  if month ∈ ([1, 3, 5, 7, 8, 10, 12] : List Int) then 31
  else if month ∈ ([4, 6, 9, 11] : List Int) then 30
  else if 4 ∣ year ∧ (¬ (100 ∣ year) ∨ 400 ∣ year) then 29 else 28

/-- A stored/exported weather row: location, date and the nine statistics
(the columns of the `weather_data` table and of the CSV export). -/
structure WeatherRecord where
  latitude : ℚ
  longitude : ℚ
  month : Int
  day : Int
  year : Int
  avg_temp : ℚ
  min_temp : ℚ
  max_temp : ℚ
  avg_wind : ℚ
  min_wind : ℚ
  max_wind : ℚ
  sum_precip : ℚ
  min_precip : ℚ
  max_precip : ℚ
deriving DecidableEq, Repr

/-- Record-store error kind (a raised exception inside a session query). -/
inductive DBError where
  | readFailure
deriving DecidableEq, Repr

/-- `DatabaseHandler.fetch` (lines 60-94), abstracted over the session query's
outcome: an exception is caught, printed and turned into `None`; an empty
query result is also `None`; a found row is returned. -/
def DatabaseHandler_fetch (query : Except DBError (Option WeatherRecord)) :
    Option WeatherRecord :=
  match query with
  | .ok (some w) => some w
  | .ok none => none
  | .error _ => none

/-- `DatabaseHandler.get_all_records` (lines 96-106): an exception is caught,
printed and turned into the empty list. -/
def get_all_records (query : Except DBError (List WeatherRecord)) : List WeatherRecord :=
  match query with
  | .ok rs => rs
  | .error _ => []

/-- Header row of `utils.format_weather_data`'s CSV export. -/
def csv_header : String :=
  "Latitude,Longitude,Month,Day,Year,Average_Temperature_F,Minimum_Temperature_F,Maximum_Temperature_F,Average_Wind_Speed_mph,Minimum_Wind_Speed_mph,Maximum_Wind_Speed_mph,Total_Precipitation_inches,Minimum_Precipitation_inches,Maximum_Precipitation_inches"

/-- Data row of the CSV export, in the fixed column order. -/
def csv_row (w : WeatherRecord) : String :=
  String.intercalate "," [toString w.latitude, toString w.longitude, toString w.month,
    toString w.day, toString w.year, toString w.avg_temp, toString w.min_temp,
    toString w.max_temp, toString w.avg_wind, toString w.min_wind, toString w.max_wind,
    toString w.sum_precip, toString w.min_precip, toString w.max_precip]

/-- Formatting error kind (a raised exception while building the CSV). -/
inductive FormatError where
  | formatFailure
deriving DecidableEq, Repr

/-- `utils.format_weather_data` (lines 65-93), abstracted over whether building
the one-row frame raised: on success the header-plus-row CSV string of
`df.to_csv(index=False)`; on an exception the error is printed and the empty
string is returned. -/
def format_weather_data (input : Except FormatError WeatherRecord) : String :=
  match input with
  | .ok w => csv_header ++ "\n" ++ csv_row w ++ "\n"
  | .error _ => ""

/-- An ORM session as seen by `DatabaseHandler.insert_data`: the committed
store, the pending (added, uncommitted) rows and whether the session is open. -/
structure Session where
  db : List WeatherRecord
  pending : List WeatherRecord
  isOpen : Bool
deriving DecidableEq, Repr

/-- `session.add(data)`: stage a row in the pending set. -/
def session_add (s : Session) (r : WeatherRecord) : Session :=
  { s with pending := s.pending ++ [r] }

/-- `session.commit()`: on success the pending rows are appended to the store;
a failing commit raises, leaving the committed store unchanged. -/
def session_commit (commitOk : Bool) (s : Session) : Except DBError Session :=
  if commitOk then .ok { s with db := s.db ++ s.pending, pending := [] }
  else .error .readFailure

/-- `session.rollback()`: discard the pending rows. -/
def session_rollback (s : Session) : Session := { s with pending := [] }

/-- `session.close()`. -/
def session_close (s : Session) : Session := { s with isOpen := false }

/-- `DatabaseHandler.insert_data` (lines 43-55): open a session, `add`, then
`commit` inside try; on an exception `rollback` and re-raise; `finally` close.
Returns the propagated outcome together with the final session state. -/
def insert_data (commitOk : Bool) (db : List WeatherRecord) (r : WeatherRecord) :
    Except DBError Unit × Session :=
  let s := session_add ⟨db, [], true⟩ r
  match session_commit commitOk s with
  | .ok s2 => (.ok (), session_close s2)
  | .error e => (.error e, session_close (session_rollback s))

/-! ### Concrete fixtures used to evaluate the definitions -/

/-- A dummy observation row carrying a given date and zero readings. -/
def sampleAt (dt : Date) : DailySample := ⟨dt, 0, 0, 0, 0, 0, 0⟩

/-- A well-behaved archive: every single-day request yields exactly one row,
dated as requested. -/
def constApi : Date → Except FetchError (List DailySample) := fun dt => .ok [sampleAt dt]

/-- An archive whose every request fails with a network error. -/
def failApi : Date → Except FetchError (List DailySample) := fun _ => .error .network

/-- A concrete observation row for June 23. -/
def sampleA : DailySample := ⟨⟨2024, 6, 23⟩, 80, 60, 70, 0, 10, 20⟩

/-- A concrete observation row for June 24. -/
def sampleB : DailySample := ⟨⟨2024, 6, 24⟩, 82, 62, 72, 1, 12, 22⟩

/-- A two-day upstream response to a single-day request. -/
def twoDayResponse : List DailySample := [sampleA, sampleB]

/-- An archive that answers every single-day request with two days of data. -/
def twoDayApi : Date → Except FetchError (List DailySample) := fun _ => .ok twoDayResponse

/-- The series `get_data_for_date` assembles from `constApi` for 6/23 with
current year 2025: years 2024 down to 2020. -/
def constSeries : List DailySample :=
  [sampleAt ⟨2024, 6, 23⟩, sampleAt ⟨2023, 6, 23⟩, sampleAt ⟨2022, 6, 23⟩,
   sampleAt ⟨2021, 6, 23⟩, sampleAt ⟨2020, 6, 23⟩]

/-- A summary fixed at given avg-temp, max-temp, max-wind, precipitation-sum
values (the only fields the scorers read), zero elsewhere. -/
def mkSummary (avgT maxT maxW sumP : ℚ) : WeatherSummary :=
  ⟨avgT, 0, maxT, 0, 0, maxW, sumP, 0, 0⟩

/-- A concrete stored row. -/
def recordA : WeatherRecord := ⟨25, -80, 6, 23, 2025, 75, 60, 85, 8, 3, 12, 1/2, 0, 1/4⟩

/-! ### Helper lemmas -/

/-- A successful single-day fetch means the archive returned a nonempty row
list whose head is the returned sample. -/
theorem fetch_one_ok {api : Date → Except FetchError (List DailySample)} {dt : Date}
    {s : DailySample} (h : fetch_one api dt = .ok s) :
    ∃ rest, api dt = .ok (s :: rest) := by
  unfold fetch_one at h
  cases hA : api dt with
  | error e => rw [hA] at h; exact absurd h (by simp)
  | ok rows =>
    rw [hA] at h
    cases rows with
    | nil => simp [extract_first_day] at h
    | cons r rest =>
      simp only [extract_first_day, Except.ok.injEq] at h
      exact ⟨rest, by rw [h]⟩

/-- `calendar.isleap` agrees with the divisibility formulation. -/
theorem isleap_iff (y : Int) :
    isleap y = true ↔ (4 ∣ y ∧ (¬ (100 ∣ y) ∨ 400 ∣ y)) := by
  unfold isleap
  simp only [Bool.and_eq_true, beq_iff_eq, Bool.or_eq_true, bne_iff_ne, ne_eq,
    Int.dvd_iff_emod_eq_zero]

/-! ### Claims -/

/-- C1: for every assembled five-sample series, the statistics step of
`fill_out_class` yields avg_temp = mean of the 5 daily mean temperatures,
min_temp/max_temp = min of the daily minima / max of the daily maxima,
avg/min/max wind = mean/min/max of the 5 daily max-wind-speed values (the
gust column is never used for any wind statistic), and
sum/min/max precip = sum/min/max of the 5 daily precipitation sums. -/
theorem c1_statistics_step (s1 s2 s3 s4 s5 : DailySample) (g1 g2 g3 g4 g5 : ℚ) :
    fill_out_stats [s1, s2, s3, s4, s5] =
      { avg_temp := (s1.temperature_2m_mean + s2.temperature_2m_mean +
          s3.temperature_2m_mean + s4.temperature_2m_mean + s5.temperature_2m_mean) / 5
        min_temp := min (min (min (min s1.temperature_2m_min s2.temperature_2m_min)
          s3.temperature_2m_min) s4.temperature_2m_min) s5.temperature_2m_min
        max_temp := max (max (max (max s1.temperature_2m_max s2.temperature_2m_max)
          s3.temperature_2m_max) s4.temperature_2m_max) s5.temperature_2m_max
        avg_wind := (s1.wind_speed_10m_max + s2.wind_speed_10m_max + s3.wind_speed_10m_max +
          s4.wind_speed_10m_max + s5.wind_speed_10m_max) / 5
        min_wind := min (min (min (min s1.wind_speed_10m_max s2.wind_speed_10m_max)
          s3.wind_speed_10m_max) s4.wind_speed_10m_max) s5.wind_speed_10m_max
        max_wind := max (max (max (max s1.wind_speed_10m_max s2.wind_speed_10m_max)
          s3.wind_speed_10m_max) s4.wind_speed_10m_max) s5.wind_speed_10m_max
        sum_precip := s1.precipitation_sum + s2.precipitation_sum + s3.precipitation_sum +
          s4.precipitation_sum + s5.precipitation_sum
        min_precip := min (min (min (min s1.precipitation_sum s2.precipitation_sum)
          s3.precipitation_sum) s4.precipitation_sum) s5.precipitation_sum
        max_precip := max (max (max (max s1.precipitation_sum s2.precipitation_sum)
          s3.precipitation_sum) s4.precipitation_sum) s5.precipitation_sum } ∧
    fill_out_stats [setGust g1 s1, setGust g2 s2, setGust g3 s3, setGust g4 s4, setGust g5 s5]
      = fill_out_stats [s1, s2, s3, s4, s5] := by
  constructor
  · simp only [fill_out_stats, calc_avg_temp, calc_wind_speed_max, calc_total_precip,
      colMean, colMin, colMax, colSum, List.map_cons, List.map_nil, List.sum_cons,
      List.sum_nil, List.foldl_cons, List.foldl_nil, List.length_cons, List.length_nil,
      WeatherSummary.mk.injEq]
    norm_num
    exact ⟨by ring, by ring, by ring⟩
  · rfl

/-- C3: the risk level accumulates risk_factors as the sum of the three
strict-threshold terms and classifies ≥4 as High, ≥2 as Medium, else Low,
each with its fixed description; the boundary point
(max_temp=90, max_wind=15, sum_precip=0.5) triggers no higher tier and
classifies as Low. -/
theorem c3_risk_level (w : WeatherSummary) :
    calculate_weather_risk w =
      (if risk_factors_spec w ≥ 4 then ("High", "Consider indoor alternatives")
       else if risk_factors_spec w ≥ 2 then ("Medium", "Have backup plans ready")
       else ("Low", "Good conditions expected")) ∧
    calculate_weather_risk (mkSummary 0 90 15 (1/2)) = ("Low", "Good conditions expected") := by
  constructor
  · by_cases h1 : w.max_temp > 90 <;> by_cases h2 : w.max_temp > 85 <;>
      by_cases h3 : w.max_wind > 25 <;> by_cases h4 : w.max_wind > 15 <;>
      by_cases h5 : w.sum_precip > 1 <;> by_cases h6 : w.sum_precip > (1/2 : ℚ) <;>
      simp only [calculate_weather_risk, risk_factors_spec, h1, h2, h3, h4, h5, h6,
        if_true, if_false] <;> norm_num
  · norm_num [calculate_weather_risk, mkSummary]

/-- C4: the suitability score equals
max(0, 100 - tempDeduction - windDeduction - precipDeduction) with the
spec's three deduction tables, and in particular
(avg_temp=75, max_wind=5, sum_precip=0) scores 100 while
(avg_temp=55, max_wind=30, sum_precip=1.2) scores 25. -/
theorem c4_suitability_score (w : WeatherSummary) :
    calculate_weather_suitability_score w = suitability_score_spec w ∧
    calculate_weather_suitability_score (mkSummary 75 0 5 0) = 100 ∧
    calculate_weather_suitability_score (mkSummary 55 0 30 (6/5)) = 25 := by
  refine ⟨?_,
    by norm_num [calculate_weather_suitability_score, suitability_score_raw, mkSummary, max_def],
    by norm_num [calculate_weather_suitability_score, suitability_score_raw, mkSummary, max_def]⟩
  simp only [calculate_weather_suitability_score, suitability_score_raw, suitability_score_spec,
    temp_deduction, wind_deduction, precip_deduction]
  split_ifs <;> rfl

/-- C9: the three deductions of `calculate_weather_suitability_score` total at
most 75, so the raw score is at least 25, the `max(0, score)` clamp never
changes the result, and the returned score lies in [25, 100]. -/
theorem c9_score_bounds (w : WeatherSummary) :
    temp_deduction w + wind_deduction w + precip_deduction w ≤ 75 ∧
    25 ≤ suitability_score_raw w ∧
    calculate_weather_suitability_score w = suitability_score_raw w ∧
    25 ≤ calculate_weather_suitability_score w ∧
    calculate_weather_suitability_score w ≤ 100 := by
  have hraw : suitability_score_raw w =
      100 - temp_deduction w - wind_deduction w - precip_deduction w := by
    simp only [suitability_score_raw, temp_deduction, wind_deduction, precip_deduction]
    split_ifs <;> rfl
  have hT : 0 ≤ temp_deduction w ∧ temp_deduction w ≤ 30 := by
    simp only [temp_deduction]; split_ifs <;> omega
  have hW : 0 ≤ wind_deduction w ∧ wind_deduction w ≤ 25 := by
    simp only [wind_deduction]; split_ifs <;> omega
  have hP : 0 ≤ precip_deduction w ∧ precip_deduction w ≤ 20 := by
    simp only [precip_deduction]; split_ifs <;> omega
  have hclamp : calculate_weather_suitability_score w = suitability_score_raw w := by
    simp only [calculate_weather_suitability_score]
    exact max_eq_right (by omega)
  exact ⟨by omega, by omega, hclamp, by omega, by omega⟩

/-- C5: `validate_date` returns true exactly when the month is in [1,12], the
year in [1940,2030], and the day within the month's bound (31/30-day months,
February by the leap rule), and the five quoted examples evaluate as stated. -/
theorem c5_validate_date :
    (∀ month day year : Int, validate_date month day year = true ↔
      (1 ≤ month ∧ month ≤ 12) ∧ (1940 ≤ year ∧ year ≤ 2030) ∧
      1 ≤ day ∧ day ≤ month_length_spec month year) ∧
    validate_date 2 29 2024 = true ∧ validate_date 2 29 2023 = false ∧
    validate_date 4 31 2025 = false ∧ validate_date 13 1 2025 = false ∧
    validate_date 6 23 1939 = false := by
  refine ⟨?_, by decide, by decide, by decide, by decide, by decide⟩
  intro m d y
  simp only [validate_date, month_length_spec]
  split_ifs with hm hy h31 h30 hleap h31b h30b hleapb <;>
    simp_all [isleap_iff]

/-- C10: when the commit inside `insert_data` fails the transaction is rolled
back and the exception re-raised, leaving the store unchanged; the session is
closed on both the success and the failure path, and a successful insert
appends exactly the new row. -/
theorem c10_insert_data (db : List WeatherRecord) (r : WeatherRecord) :
    (insert_data false db r).1 = .error .readFailure ∧
    ((insert_data false db r).2).db = db ∧
    ((insert_data false db r).2).pending = [] ∧
    ((insert_data false db r).2).isOpen = false ∧
    (insert_data true db r).1 = .ok () ∧
    ((insert_data true db r).2).db = db ++ [r] ∧
    ((insert_data true db r).2).isOpen = false := by
  simp [insert_data, session_add, session_commit, session_rollback, session_close]

/-- C8 counterexample: a record-store read failure and an empty query result
are not distinguishable — `DatabaseHandler.fetch` returns `None` for both. -/
theorem c8_counterexample :
    DatabaseHandler_fetch (Except.error DBError.readFailure) =
      DatabaseHandler_fetch (Except.ok none) := rfl

set_option maxRecDepth 8000 in
/-- C8 (amended): read failures of the record store are swallowed into the
same `None` (resp. `[]`) as an empty result, so they are not distinguishable
error kinds; a CSV-formatting failure yields the empty string while every
successful export is nonempty, so those two are distinguishable. -/
theorem c8_error_values :
    (∀ e, DatabaseHandler_fetch (.error e) = none) ∧
    DatabaseHandler_fetch (.ok none) = none ∧
    (∀ w, DatabaseHandler_fetch (.ok (some w)) = some w) ∧
    (∀ e, get_all_records (.error e) = []) ∧
    get_all_records (.ok []) = [] ∧
    (∀ e, format_weather_data (.error e) = "") ∧
    (∀ w, 0 < (format_weather_data (.ok w)).length) := by
  refine ⟨fun e => rfl, rfl, fun w => rfl, fun e => rfl, rfl, fun e => rfl, fun w => ?_⟩
  simp only [format_weather_data, String.length_append]
  have h : 0 < csv_header.length := by decide
  omega

/-- C7 counterexample: on a two-day upstream response to a single-day request
the fetch does not fail — it silently returns the first day's sample. -/
theorem c7_counterexample :
    twoDayResponse.length = 2 ∧
    fetch_one twoDayApi ⟨2024, 6, 23⟩ = Except.ok sampleA := ⟨rfl, rfl⟩

/-- C7 (amended): a single-day fetch raises `IndexError` when the upstream
returns zero days, returns the first day's sample whenever the upstream
returns at least one day (even more than one), and propagates upstream
errors. -/
theorem c7_single_day_fetch (api : Date → Except FetchError (List DailySample)) (dt : Date) :
    (api dt = .ok [] → fetch_one api dt = .error .indexError) ∧
    (∀ r rest, api dt = .ok (r :: rest) → fetch_one api dt = .ok r) ∧
    (∀ e, api dt = .error e → fetch_one api dt = .error e) := by
  refine ⟨fun h => ?_, fun r rest h => ?_, fun e h => ?_⟩ <;>
    simp [fetch_one, h, extract_first_day]

/-- C7 witness: on a well-behaved archive the fetch returns the one sample. -/
theorem c7_single_day_fetch_witness :
    fetch_one constApi ⟨2024, 6, 23⟩ = Except.ok (sampleAt ⟨2024, 6, 23⟩) :=
  (c7_single_day_fetch constApi ⟨2024, 6, 23⟩).2.1 (sampleAt ⟨2024, 6, 23⟩) [] rfl

/-- C6: if any one of the five per-year fetches fails, `fill_out_class` as a
whole fails, and every produced summary is `fill_out_stats` of a series of
exactly 5 samples — no summary is computed from fewer. -/
theorem c6_no_partial_summary (api : Date → Except FetchError (List DailySample))
    (currentYear month day : Int) :
    (∀ k : Int, k ∈ ([1, 2, 3, 4, 5] : List Int) → ∀ e : FetchError,
      fetch_year api currentYear month day k = .error e →
      ∃ eF, fill_out_class api currentYear month day = .error eF) ∧
    (∀ s, fill_out_class api currentYear month day = .ok s →
      ∃ data, get_data_for_date api currentYear month day = .ok data ∧
        data.length = 5 ∧ s = fill_out_stats data) := by
  constructor
  · intro k hk e hke
    rcases h1 : fetch_year api currentYear month day 1 with e1 | s1
    · exact ⟨e1, by simp [fill_out_class, get_data_for_date, h1]⟩
    rcases h2 : fetch_year api currentYear month day 2 with e2 | s2
    · exact ⟨e2, by simp [fill_out_class, get_data_for_date, h1, h2]⟩
    rcases h3 : fetch_year api currentYear month day 3 with e3 | s3
    · exact ⟨e3, by simp [fill_out_class, get_data_for_date, h1, h2, h3]⟩
    rcases h4 : fetch_year api currentYear month day 4 with e4 | s4
    · exact ⟨e4, by simp [fill_out_class, get_data_for_date, h1, h2, h3, h4]⟩
    rcases h5 : fetch_year api currentYear month day 5 with e5 | s5
    · exact ⟨e5, by simp [fill_out_class, get_data_for_date, h1, h2, h3, h4, h5]⟩
    exfalso
    simp only [List.mem_cons, List.not_mem_nil, or_false] at hk
    rcases hk with rfl | rfl | rfl | rfl | rfl
    · rw [h1] at hke; exact Except.noConfusion hke
    · rw [h2] at hke; exact Except.noConfusion hke
    · rw [h3] at hke; exact Except.noConfusion hke
    · rw [h4] at hke; exact Except.noConfusion hke
    · rw [h5] at hke; exact Except.noConfusion hke
  · intro s hs
    rcases h1 : fetch_year api currentYear month day 1 with e1 | s1
    · simp [fill_out_class, get_data_for_date, h1] at hs
    rcases h2 : fetch_year api currentYear month day 2 with e2 | s2
    · simp [fill_out_class, get_data_for_date, h1, h2] at hs
    rcases h3 : fetch_year api currentYear month day 3 with e3 | s3
    · simp [fill_out_class, get_data_for_date, h1, h2, h3] at hs
    rcases h4 : fetch_year api currentYear month day 4 with e4 | s4
    · simp [fill_out_class, get_data_for_date, h1, h2, h3, h4] at hs
    rcases h5 : fetch_year api currentYear month day 5 with e5 | s5
    · simp [fill_out_class, get_data_for_date, h1, h2, h3, h4, h5] at hs
    refine ⟨[s1, s2, s3, s4, s5], by simp [get_data_for_date, h1, h2, h3, h4, h5],
      by simp, ?_⟩
    simp only [fill_out_class, get_data_for_date, h1, h2, h3, h4, h5] at hs
    exact (Except.ok.inj hs).symm

/-- C6 witness: with an archive that always fails, the analysis fails. -/
theorem c6_no_partial_summary_witness :
    ∃ eF, fill_out_class failApi 2025 6 23 = Except.error eF :=
  (c6_no_partial_summary failApi 2025 6 23).1 1 (by decide) FetchError.network rfl

/-- C2 counterexample: the series assembled for target 6/23 with current year
2025 has years [2024, 2023, 2022, 2021, 2020] — descending, not ascending. -/
theorem c2_counterexample :
    seriesYears (get_data_for_date constApi 2025 6 23) =
      .ok [2024, 2023, 2022, 2021, 2020] ∧
    ([2024, 2023, 2022, 2021, 2020] : List Int) ≠ [2020, 2021, 2022, 2023, 2024] ∧
    ¬ List.Chain' (· ≤ ·) [(2024 : Int), 2023, 2022, 2021, 2020] := by
  refine ⟨rfl, by decide, by norm_num [List.chain'_cons]⟩

/-- C2 (amended): for an archive whose single-day answers are dated as
requested, a successfully assembled series has exactly 5 entries, one per year
from currentYear−5 to currentYear−1 inclusive, each with the target's month
and day, ordered by descending year (currentYear−1 first). -/
theorem c2_five_year_series (api : Date → Except FetchError (List DailySample))
    (currentYear month day : Int)
    (hapi : ∀ dt r rest, api dt = .ok (r :: rest) → r.date = dt)
    (series : List DailySample)
    (hok : get_data_for_date api currentYear month day = .ok series) :
    series.length = 5 ∧
    series.map DailySample.date =
      [⟨currentYear - 1, month, day⟩, ⟨currentYear - 2, month, day⟩,
       ⟨currentYear - 3, month, day⟩, ⟨currentYear - 4, month, day⟩,
       ⟨currentYear - 5, month, day⟩] := by
  rcases h1 : fetch_year api currentYear month day 1 with e1 | s1
  · simp [get_data_for_date, h1] at hok
  rcases h2 : fetch_year api currentYear month day 2 with e2 | s2
  · simp [get_data_for_date, h1, h2] at hok
  rcases h3 : fetch_year api currentYear month day 3 with e3 | s3
  · simp [get_data_for_date, h1, h2, h3] at hok
  rcases h4 : fetch_year api currentYear month day 4 with e4 | s4
  · simp [get_data_for_date, h1, h2, h3, h4] at hok
  rcases h5 : fetch_year api currentYear month day 5 with e5 | s5
  · simp [get_data_for_date, h1, h2, h3, h4, h5] at hok
  simp only [get_data_for_date, h1, h2, h3, h4, h5] at hok
  have hseries : series = [s1, s2, s3, s4, s5] := (Except.ok.inj hok).symm
  subst hseries
  obtain ⟨r1, hr1⟩ := fetch_one_ok (h1 : fetch_one api ⟨currentYear - 1, month, day⟩ = .ok s1)
  obtain ⟨r2, hr2⟩ := fetch_one_ok (h2 : fetch_one api ⟨currentYear - 2, month, day⟩ = .ok s2)
  obtain ⟨r3, hr3⟩ := fetch_one_ok (h3 : fetch_one api ⟨currentYear - 3, month, day⟩ = .ok s3)
  obtain ⟨r4, hr4⟩ := fetch_one_ok (h4 : fetch_one api ⟨currentYear - 4, month, day⟩ = .ok s4)
  obtain ⟨r5, hr5⟩ := fetch_one_ok (h5 : fetch_one api ⟨currentYear - 5, month, day⟩ = .ok s5)
  have d1 := hapi _ _ _ hr1
  have d2 := hapi _ _ _ hr2
  have d3 := hapi _ _ _ hr3
  have d4 := hapi _ _ _ hr4
  have d5 := hapi _ _ _ hr5
  simp [d1, d2, d3, d4, d5]

/-- C2 witness: the well-behaved archive at current year 2025 assembles the
series for 6/23 of 2024 down to 2020. -/
theorem c2_five_year_series_witness :
    constSeries.length = 5 ∧
    constSeries.map DailySample.date =
      [⟨2024, 6, 23⟩, ⟨2023, 6, 23⟩, ⟨2022, 6, 23⟩, ⟨2021, 6, 23⟩, ⟨2020, 6, 23⟩] := by
  have h := c2_five_year_series constApi 2025 6 23
    (fun dt r rest h => by
      simp only [constApi, Except.ok.injEq, List.cons.injEq] at h
      rw [← h.1]
      rfl)
    constSeries rfl
  norm_num at h
  exact h

/-- C5 witness: February 29, 2024 validates, by the characterization. -/
theorem c5_validate_date_witness : validate_date 2 29 2024 = true :=
  (c5_validate_date.1 2 29 2024).mpr (by decide)
